import Mathlib

/-
Verification of the Omni-Chat orchestration layer (src/app.py) against its
natural-language specification.  Each Python/JS function relevant to a claim is
shallowly embedded as a pure Lean function; backend calls (Gemini client,
puter.ai.chat, SKYREELS HTTP, gTTS) are abstracted as function parameters whose
results the embedded code inspects exactly as the source does.
-/

namespace OmniChat

/- ### Backend response model and the `/process_text` handler (src/app.py 83-118)

A generated-content response carries a list of candidates; a candidate may have
content; content holds parts; a part may or may not carry a `text` attribute
(`hasattr(part, 'text')` is modelled by `Option`). -/

structure GenPart where
  text : Option String
deriving DecidableEq, Repr, Inhabited

structure GenContent where
  parts : List GenPart
deriving DecidableEq, Repr, Inhabited

structure Candidate where
  content : Option GenContent
deriving DecidableEq, Repr, Inhabited

structure GenResponse where
  candidates : List Candidate
deriving DecidableEq, Repr, Inhabited

/-- A Flask `jsonify` response from `/process_text`: HTTP status plus the value
of the `text` field of the JSON body. -/
structure TextResp where
  status : Nat
  text : String
deriving DecidableEq, Repr

/-- The text-extraction block of `process_text` (src/app.py 108-113):
`text = ""`; if the candidate list is non-empty and the first candidate has
content, concatenate the `text` of each part that has one.  Later candidates
are never inspected. -/
def extract_text (response : GenResponse) : String :=
  match response.candidates with
  | [] => ""
  | c :: _ =>
    match c.content with
    | none => ""
    | some content =>
      content.parts.foldl
        (fun acc p =>
          match p.text with
          | some t => acc ++ t
          | none => acc) ""

/-- The `/process_text` handler (src/app.py 83-118).  `outcome` is the result of
`client.generate_content` (together with client construction): `Except.error e`
models an exception with message `e`, caught by the handler's `try/except`.
On success the handler returns `{"text": text or "No response generated"}`;
on exception it returns `{"text": "Error processing request: " + str(e)}`,
both as normal HTTP 200 responses. -/
def process_text (outcome : Except String GenResponse) : TextResp :=
  match outcome with
  | .error e => { status := 200, text := "Error processing request: " ++ e }
  | .ok response =>
    let text := extract_text response
    { status := 200, text := if text = "" then "No response generated" else text }

/- ### Theorems for the `/process_text` handler -/

/-- Claim C8, counterexample: with zero candidates the handler does not report a
backend failure; it follows the success path and returns the HTTP-200 placeholder
body, indistinguishable from a genuine success whose text happens to be the
placeholder string. -/
theorem process_text_zero_candidates_not_failure :
    process_text (Except.ok { candidates := [] }) =
      { status := 200, text := "No response generated" }
    ∧ process_text (Except.ok { candidates := [] }) =
      process_text (Except.ok { candidates :=
        [{ content := some { parts := [{ text := some "No response generated" }] } }] }) := by
  constructor
  · rfl
  · rfl

/-- Claim C8, amended: the text returned on success is computed from the first
candidate only (any later candidates are ignored), and a zero-candidate response
is handled on the success path, yielding HTTP 200 with the placeholder text
`No response generated` rather than a failure. -/
theorem process_text_first_candidate_only (c : Candidate) (rest : List Candidate) :
    extract_text { candidates := c :: rest } = extract_text { candidates := [c] }
    ∧ process_text (Except.ok { candidates := c :: rest }) =
        process_text (Except.ok { candidates := [c] })
    ∧ process_text (Except.ok { candidates := [] }) =
        { status := 200, text := "No response generated" } := by
  refine ⟨rfl, ?_, rfl⟩
  simp [process_text, extract_text]

/-- Claim C8 (amended), witness: a concrete two-candidate response where the
second candidate is ignored, and the zero-candidate success response. -/
theorem process_text_first_candidate_only_witness :
    extract_text { candidates :=
        [{ content := some { parts := [{ text := some "first" }] } },
         { content := some { parts := [{ text := some "second" }] } }] } =
      extract_text { candidates :=
        [{ content := some { parts := [{ text := some "first" }] } }] }
    ∧ process_text (Except.ok { candidates := [] }) =
      { status := 200, text := "No response generated" } :=
  ⟨(process_text_first_candidate_only
      { content := some { parts := [{ text := some "first" }] } }
      [{ content := some { parts := [{ text := some "second" }] } }]).1,
   (process_text_first_candidate_only
      { content := some { parts := [{ text := some "first" }] } }
      [{ content := some { parts := [{ text := some "second" }] } }]).2.2⟩

/-- Claim C9: every exception raised while calling the backend is caught and
converted into a readable error string delivered in the normal response body;
the handler is total and always answers with HTTP 200, never propagating an
exception to the client. -/
theorem process_text_no_crash (outcome : Except String GenResponse) :
    (process_text outcome).status = 200
    ∧ (∀ e, outcome = Except.error e →
        process_text outcome = { status := 200, text := "Error processing request: " ++ e }) := by
  constructor
  · cases outcome <;> rfl
  · intro e he
    subst he
    rfl

/-- Claim C9, witness. -/
theorem process_text_no_crash_witness :
    process_text (Except.error "boom") =
      { status := 200, text := "Error processing request: boom" } :=
  (process_text_no_crash (Except.error "boom")).2 "boom" rfl

/-- Claim C10: whenever the backend responds successfully but the extracted text
is empty (no candidates, first candidate without content, or parts concatenating
to the empty string), the handler returns the literal placeholder
`No response generated` rather than an empty text field. -/
theorem process_text_placeholder (response : GenResponse)
    (h : extract_text response = "") :
    process_text (Except.ok response) =
      { status := 200, text := "No response generated" } := by
  simp [process_text, h]

/-- Claim C10, witness: a response whose single candidate's parts concatenate to
the empty string. -/
theorem process_text_placeholder_witness :
    extract_text { candidates := [{ content := some { parts := [{ text := some "" }] } }] } = ""
    ∧ process_text (Except.ok
        { candidates := [{ content := some { parts := [{ text := some "" }] } }] }) =
      { status := 200, text := "No response generated" } :=
  ⟨rfl, process_text_placeholder
    { candidates := [{ content := some { parts := [{ text := some "" }] } }] } rfl⟩

/- ### The `/generate_tts` handler (src/app.py 37-47)

Python's in-memory byte stream is modelled as a byte buffer with a file
position: writing places
bytes at the position and advances it; reading returns the bytes from the
current position to the end.  `gTTS(...).write_to_fp(fp)` is modelled by an
abstract synthesizer `synth` whose output bytes are written to the buffer
(raising, i.e. `Except.error`, on failure). -/

structure ByteBuf where
  data : List Nat
  pos : Nat
deriving DecidableEq, Repr

def ByteBuf.write_to (fp : ByteBuf) (bs : List Nat) : ByteBuf :=
  { data := fp.data.take fp.pos ++ bs ++ fp.data.drop (fp.pos + bs.length),
    pos := fp.pos + bs.length }

def ByteBuf.read (fp : ByteBuf) : List Nat :=
  fp.data.drop fp.pos

def b64charList : List Char :=
  ['A','B','C','D','E','F','G','H','I','J','K','L','M',
   'N','O','P','Q','R','S','T','U','V','W','X','Y','Z',
   'a','b','c','d','e','f','g','h','i','j','k','l','m',
   'n','o','p','q','r','s','t','u','v','w','x','y','z',
   '0','1','2','3','4','5','6','7','8','9','+','/']

def b64char (n : Nat) : Char :=
  b64charList.getD n '?'

/-- Standard base64 of a byte list (`base64.b64encode(...).decode()`). -/
def b64encode : List Nat → String
  | [] => ""
  | [a] => String.mk [b64char (a / 4), b64char (a % 4 * 16), '=', '=']
  | [a, b] =>
    String.mk [b64char (a / 4), b64char (a % 4 * 16 + b / 16), b64char (b % 16 * 4), '=']
  | a :: b :: c :: rest =>
    String.mk [b64char (a / 4), b64char (a % 4 * 16 + b / 16),
               b64char (b % 16 * 4 + c / 64), b64char (c % 64)] ++ b64encode rest

/-- A `/generate_tts` response: the base64 `audio` field on success, or an HTTP
error status with message. -/
inductive TtsResp
  | ok (audio : String)
  | err (status : Nat) (msg : String)
deriving DecidableEq, Repr

/-- The `/generate_tts` handler (src/app.py 37-47).  `text` is
`request.json.get('text')` (`none` when absent); `if not text` rejects missing
or empty text with 400.  Otherwise `tts.write_to_fp(fp)` writes the synthesized
bytes into a fresh `ByteBuf`, and the handler base64-encodes `fp.read()` —
reading from the post-write file position, exactly as the source does. -/
def generate_tts (synth : String → Except String (List Nat)) (text : Option String) :
    TtsResp :=
  match text with
  | none => TtsResp.err 400 "No text"
  | some t =>
    if t = "" then TtsResp.err 400 "No text"
    else
      match synth t with
      | .error e => TtsResp.err 500 e
      | .ok bs =>
        let fp : ByteBuf := { data := [], pos := 0 }
        let fp2 := fp.write_to bs
        TtsResp.ok (b64encode fp2.read)

theorem b64encode_ne_empty (a : Nat) (rest : List Nat) :
    b64encode (a :: rest) ≠ "" := by
  intro h
  match rest with
  | [] => exact List.cons_ne_nil _ _ (congrArg String.data h)
  | [b] => exact List.cons_ne_nil _ _ (congrArg String.data h)
  | b :: c :: r => exact List.cons_ne_nil _ _ (congrArg String.data h)

/-- Claim C6: for non-empty text whose synthesis yields non-empty audio bytes,
the handler succeeds but the returned `audio` field is the base64 encoding of
the EMPTY byte string (because `fp.read()` reads from the end-of-buffer
position left by `write_to_fp`), while the base64 encoding of the synthesized
bytes is non-empty — the response does not carry the synthesized audio. -/
theorem generate_tts_empty_audio (synth : String → Except String (List Nat))
    (t : String) (bs : List Nat)
    (ht : t ≠ "") (hs : synth t = Except.ok bs) (hbs : bs ≠ []) :
    generate_tts synth (some t) = TtsResp.ok (b64encode [])
    ∧ b64encode [] = ""
    ∧ b64encode bs ≠ "" := by
  refine ⟨?_, rfl, ?_⟩
  · have h1 : generate_tts synth (some t) =
        if t = "" then TtsResp.err 400 "No text"
        else match synth t with
          | .error e => TtsResp.err 500 e
          | .ok bs =>
            let fp : ByteBuf := { data := [], pos := 0 }
            let fp2 := fp.write_to bs
            TtsResp.ok (b64encode fp2.read) := rfl
    rw [h1, if_neg ht, hs]
    show TtsResp.ok (b64encode (ByteBuf.write_to { data := [], pos := 0 } bs).read) = _
    have hread : (ByteBuf.write_to { data := [], pos := 0 } bs).read = [] := by
      simp [ByteBuf.write_to, ByteBuf.read]
    rw [hread]
  · match bs, hbs with
    | a :: rest, _ => exact b64encode_ne_empty a rest

/-- Claim C6, witness: synthesizing "hello" into bytes `[72, 101]` produces a
response whose audio field is empty. -/
theorem generate_tts_empty_audio_witness :
    generate_tts (fun _ => Except.ok [72, 101]) (some "hello") = TtsResp.ok ""
    ∧ b64encode [72, 101] ≠ "" := by
  have h := generate_tts_empty_audio (fun _ => Except.ok [72, 101]) "hello" [72, 101]
    (by decide) rfl (by decide)
  exact ⟨h.2.1 ▸ h.1, h.2.2⟩

/- ### The `/generate_video` polling loop (src/app.py 159-190)

After a successful submit, the handler polls the task endpoint up to
`max_attempts = 60` times.  A poll whose HTTP status is not 200 is skipped
(`continue`); otherwise the task `status` field decides: `success`, `failed`
and `unknown` return immediately, anything else (in particular `submitted`,
`pending`, `running`) keeps polling; exhausting the bound returns a timeout
error. -/

structure VideoData where
  video_url : Option String
  vidDuration : Option Nat
  resolution : Option String
  cost_credits : Option Nat
deriving DecidableEq, Repr, Inhabited

structure QueryResponse where
  statusCode : Nat
  taskStatus : Option String
  msg : Option String
  data : Option VideoData
deriving DecidableEq, Repr, Inhabited

/-- The JSON body (and HTTP status) with which `/generate_video` answers once
polling ends. -/
inductive VideoOutcome
  | success (video_url : Option String) (vidDuration : Option Nat)
      (resolution : Option String) (cost_credits : Option Nat)
  | err (status : Nat) (msg : String)
deriving DecidableEq, Repr

/-- One iteration of the polling loop body (src/app.py 165-188): `none` means
"continue polling", `some r` means "return `r` now". -/
def pollStep (q : QueryResponse) : Option VideoOutcome :=
  if q.statusCode ≠ 200 then none
  else if q.taskStatus = some "success" then
    let vd := q.data.getD { video_url := none, vidDuration := none,
                            resolution := none, cost_credits := none }
    some (.success vd.video_url vd.vidDuration vd.resolution vd.cost_credits)
  else if q.taskStatus = some "failed" then
    some (.err 500 ("Video generation failed: " ++ q.msg.getD "Unknown error"))
  else if q.taskStatus = some "unknown" then
    some (.err 500 "Unknown task status from SKYREELS API")
  else none

def max_attempts : Nat := 60

/-- The `for attempt in range(max_attempts)` loop, with the attempt counter and
the remaining fuel made explicit; returns the final response together with the
number of polls performed. -/
def pollFrom (responses : Nat → QueryResponse) (attempt remaining : Nat) :
    VideoOutcome × Nat :=
  match remaining with
  | 0 => (.err 500 "Video generation timed out after 5 minutes", attempt)
  | r + 1 =>
    match pollStep (responses attempt) with
    | some out => (out, attempt + 1)
    | none => pollFrom responses (attempt + 1) r

/-- The polling phase of `/generate_video` (src/app.py 159-190), given the
sequence of poll responses. -/
def generate_video_poll (responses : Nat → QueryResponse) : VideoOutcome × Nat :=
  pollFrom responses 0 max_attempts

theorem pollFrom_count_le (responses : Nat → QueryResponse) :
    ∀ remaining attempt, (pollFrom responses attempt remaining).2 ≤ attempt + remaining := by
  intro remaining
  induction remaining with
  | zero => intro attempt; simp [pollFrom]
  | succ r ih =>
    intro attempt
    rw [pollFrom]
    cases hp : pollStep (responses attempt) with
    | some out =>
      show attempt + 1 ≤ attempt + (r + 1)
      omega
    | none =>
      show (pollFrom responses (attempt + 1) r).2 ≤ attempt + (r + 1)
      have := ih (attempt + 1)
      omega

theorem pollFrom_first_hit (responses : Nat → QueryResponse) :
    ∀ remaining attempt k out, k < remaining →
      (∀ i, i < k → pollStep (responses (attempt + i)) = none) →
      pollStep (responses (attempt + k)) = some out →
      pollFrom responses attempt remaining = (out, attempt + k + 1) := by
  intro remaining
  induction remaining with
  | zero => intro attempt k out hk; omega
  | succ r ih =>
    intro attempt k out hk hnone hhit
    rw [pollFrom]
    match k with
    | 0 =>
      simp only [Nat.add_zero] at hhit
      rw [hhit]
    | k' + 1 =>
      have h0 : pollStep (responses attempt) = none := by
        have := hnone 0 (by omega)
        simpa using this
      have hnone' : ∀ i, i < k' → pollStep (responses (attempt + 1 + i)) = none := by
        intro i hi
        have := hnone (i + 1) (by omega)
        rw [show attempt + 1 + i = attempt + (i + 1) by omega]
        exact this
      have hhit' : pollStep (responses (attempt + 1 + k')) = some out := by
        rw [show attempt + 1 + k' = attempt + (k' + 1) by omega]
        exact hhit
      rw [h0]
      show pollFrom responses (attempt + 1) r = (out, attempt + (k' + 1) + 1)
      have heq : attempt + (k' + 1) + 1 = attempt + 1 + k' + 1 := by omega
      rw [heq]
      exact ih (attempt + 1) k' out (by omega) hnone' hhit'

theorem pollFrom_timeout (responses : Nat → QueryResponse) :
    ∀ remaining attempt,
      (∀ i, i < remaining → pollStep (responses (attempt + i)) = none) →
      pollFrom responses attempt remaining =
        (.err 500 "Video generation timed out after 5 minutes", attempt + remaining) := by
  intro remaining
  induction remaining with
  | zero => intro attempt _; simp [pollFrom]
  | succ r ih =>
    intro attempt hnone
    rw [pollFrom]
    have h0 : pollStep (responses attempt) = none := by
      have := hnone 0 (by omega)
      simpa using this
    have hnone' : ∀ i, i < r → pollStep (responses (attempt + 1 + i)) = none := by
      intro i hi
      have := hnone (i + 1) (by omega)
      rw [show attempt + 1 + i = attempt + (i + 1) by omega]
      exact this
    rw [h0]
    show pollFrom responses (attempt + 1) r =
      (.err 500 "Video generation timed out after 5 minutes", attempt + (r + 1))
    have heq : attempt + (r + 1) = attempt + 1 + r := by omega
    rw [heq]
    exact ih (attempt + 1) hnone'

/-- Claim C7: the polling loop performs at most 60 polls; a 200-status poll
whose task status is `submitted`, `pending` or `running` keeps polling while
`success`, `failed` or `unknown` ends the loop; the loop returns the outcome of
the first terminal poll immediately; and if no poll among the 60 is terminal it
returns the timeout error. -/
theorem generate_video_poll_spec (responses : Nat → QueryResponse) :
    (generate_video_poll responses).2 ≤ 60
    ∧ (∀ q : QueryResponse, q.statusCode = 200 →
        (q.taskStatus = some "submitted" ∨ q.taskStatus = some "pending" ∨
          q.taskStatus = some "running") → pollStep q = none)
    ∧ (∀ q : QueryResponse, q.statusCode = 200 →
        (q.taskStatus = some "success" ∨ q.taskStatus = some "failed" ∨
          q.taskStatus = some "unknown") → (pollStep q).isSome = true)
    ∧ (∀ k out, k < 60 →
        (∀ i, i < k → pollStep (responses i) = none) →
        pollStep (responses k) = some out →
        generate_video_poll responses = (out, k + 1))
    ∧ ((∀ i, i < 60 → pollStep (responses i) = none) →
        generate_video_poll responses =
          (.err 500 "Video generation timed out after 5 minutes", 60)) := by
  refine ⟨?_, ?_, ?_, ?_, ?_⟩
  · have := pollFrom_count_le responses max_attempts 0
    simpa [generate_video_poll, max_attempts] using this
  · intro q h200 hst
    rcases hst with h | h | h <;> simp [pollStep, h200, h]
  · intro q h200 hst
    rcases hst with h | h | h <;> simp [pollStep, h200, h]
  · intro k out hk hnone hhit
    have := pollFrom_first_hit responses max_attempts 0 k out (by simpa [max_attempts] using hk)
      (by simpa using hnone) (by simpa using hhit)
    simpa [generate_video_poll] using this
  · intro hnone
    have := pollFrom_timeout responses max_attempts 0 (by simpa [max_attempts] using hnone)
    simpa [generate_video_poll, max_attempts] using this

/-- Claim C7, witness: a task that stays `running` twice and then succeeds is
answered after exactly 3 polls; a task that never leaves `pending` times out. -/
theorem generate_video_poll_spec_witness :
    generate_video_poll
        (fun i => if i < 2 then
          { statusCode := 200, taskStatus := some "running", msg := none, data := none }
        else
          { statusCode := 200, taskStatus := some "success", msg := none,
            data := some { video_url := some "u", vidDuration := some 5,
                           resolution := some "720p", cost_credits := some 1 } }) =
      (.success (some "u") (some 5) (some "720p") (some 1), 3)
    ∧ generate_video_poll
        (fun _ => { statusCode := 200, taskStatus := some "pending", msg := none, data := none }) =
      (.err 500 "Video generation timed out after 5 minutes", 60) := by
  constructor
  · exact (generate_video_poll_spec _).2.2.2.1 2
      (.success (some "u") (some 5) (some "720p") (some 1))
      (by omega)
      (by intro i hi
          interval_cases i <;> rfl)
      (by rfl)
  · exact (generate_video_poll_spec _).2.2.2.2 (by intro i _; rfl)

/- ### Director Mode ensemble (`runDirectorMode`, src/app.py 556-597, client JS)

`puter.ai.chat(prompt, {model})` is abstracted as `chat : String → String →
Except String PuterRes` (prompt, model); a rejected promise is `Except.error`
carrying the stringified rejection value.  Each expert promise carries its own
`.catch`, so `Promise.all` never rejects: the embedding maps every expert to a
section string.  `extractText` (src/app.py 500-507) normalizes a chat result. -/

inductive PuterContent
  | str (s : String)
  | arr (parts : List String)
deriving DecidableEq, Repr

inductive PuterRes
  | str (s : String)
  | message (content : PuterContent)
  | other (json : String)
deriving DecidableEq, Repr

def extractText : PuterRes → String
  | .str s => s
  | .message (.arr parts) => parts.headD ""
  | .message (.str c) => c
  | .other j => j

structure Expert where
  model : String
  name : String
deriving DecidableEq, Repr, Inhabited

/-- The expert roster of `runDirectorMode` (src/app.py 558-562). -/
def experts : List Expert :=
  [{ model := "gpt-5.2-pro", name := "GPT-5.2 Pro" },
   { model := "claude-opus-4-5", name := "Claude Opus 4.5" },
   { model := "gemini-3-pro-preview", name := "Gemini 3 Pro" }]

/-- One fan-out branch (src/app.py 566-570): the per-expert promise with its
`.then` label wrapper and `.catch` failure label. -/
def expertSection (chat : String → String → Except String PuterRes)
    (prompt : String) (ex : Expert) : String :=
  match chat prompt ex.model with
  | .ok res => "--- Expert: " ++ ex.name ++ " ---\n" ++ extractText res ++ "\n"
  | .error err => "--- Expert: " ++ ex.name ++ " ---\nFailed: " ++ err ++ "\n"

/-- `results = await Promise.all(promises)` (src/app.py 572): one entry per
expert, in expert-list order. -/
def directorResults (chat : String → String → Except String PuterRes)
    (prompt : String) : List String :=
  experts.map (expertSection chat prompt)

/-- `rawData = results.join("\n")` (src/app.py 573). -/
def directorRawData (chat : String → String → Except String PuterRes)
    (prompt : String) : String :=
  String.intercalate "\n" (directorResults chat prompt)

/-- The synthesis prompt template (src/app.py 580-587). -/
def finalPrompt (prompt rawData : String) : String :=
  "\n                        USER QUERY: " ++ prompt ++
  "\n                        \n                        EXPERTS OPINIONS:\n                        " ++
  rawData ++
  "\n                        \n                        INSTRUCTION: Combine these opinions into one perfect response. Do not mention the experts. Just write the answer.\n                    "

/-- `runDirectorMode` (src/app.py 556-597): fan out to the experts, join the
labeled sections, issue the synthesis call to `gemini-3-pro-preview`; display
the synthesis text, or on failure surface `Director Mode Failed: <e>`. -/
def runDirectorMode (chat : String → String → Except String PuterRes)
    (prompt : String) : String :=
  let raw := directorRawData chat prompt
  match chat (finalPrompt prompt raw) "gemini-3-pro-preview" with
  | .ok synthesis => extractText synthesis
  | .error e => "Director Mode Failed: " ++ e

theorem data_append (s t : String) : (s ++ t).data = s.data ++ t.data := rfl

theorem expertSection_starts (chat : String → String → Except String PuterRes)
    (prompt : String) (ex : Expert) :
    ∃ rest, (expertSection chat prompt ex).data = '-' :: rest := by
  unfold expertSection
  cases chat prompt ex.model with
  | ok res => exact ⟨_, rfl⟩
  | error err => exact ⟨_, rfl⟩

theorem directorRawData_starts (chat : String → String → Except String PuterRes)
    (prompt : String) :
    ∃ rest, (directorRawData chat prompt).data = '-' :: rest := by
  obtain ⟨r1, h1⟩ :=
    expertSection_starts chat prompt { model := "gpt-5.2-pro", name := "GPT-5.2 Pro" }
  have hraw : directorRawData chat prompt =
      expertSection chat prompt { model := "gpt-5.2-pro", name := "GPT-5.2 Pro" } ++ "\n" ++
      expertSection chat prompt { model := "claude-opus-4-5", name := "Claude Opus 4.5" } ++ "\n" ++
      expertSection chat prompt { model := "gemini-3-pro-preview", name := "Gemini 3 Pro" } := rfl
  refine ⟨(((r1 ++ ("\n" : String).data) ++
      (expertSection chat prompt { model := "claude-opus-4-5", name := "Claude Opus 4.5" }).data) ++
      ("\n" : String).data) ++
      (expertSection chat prompt { model := "gemini-3-pro-preview", name := "Gemini 3 Pro" }).data, ?_⟩
  rw [hraw, data_append, data_append, data_append, data_append, h1]
  rfl

/-- Claim C2: the fan-in has one entry per expert; the concatenated synthesis
input lists the three labeled sections in expert-list order (the embedding of
`Promise.all`, whose result order is argument order, not completion order); and
a failed expert call contributes a `Failed: <error>` section instead of
aborting the group. -/
theorem ensemble_fanout (chat : String → String → Except String PuterRes)
    (prompt : String) :
    (directorResults chat prompt).length = experts.length
    ∧ directorRawData chat prompt =
        expertSection chat prompt (experts.getD 0 default) ++ "\n" ++
        expertSection chat prompt (experts.getD 1 default) ++ "\n" ++
        expertSection chat prompt (experts.getD 2 default)
    ∧ (∀ ex er, chat prompt ex.model = Except.error er →
        expertSection chat prompt ex =
          "--- Expert: " ++ ex.name ++ " ---\nFailed: " ++ er ++ "\n") := by
  refine ⟨rfl, rfl, ?_⟩
  intro ex er her
  unfold expertSection
  rw [her]

/-- Claim C2, witness: with the middle expert failing, its section is the
labeled failure string. -/
theorem ensemble_fanout_witness :
    expertSection
        (fun _ m => if m = "claude-opus-4-5" then Except.error "boom"
                    else Except.ok (PuterRes.str "ans"))
        "q" { model := "claude-opus-4-5", name := "Claude Opus 4.5" } =
      "--- Expert: Claude Opus 4.5 ---\nFailed: boom\n" :=
  (ensemble_fanout
      (fun _ m => if m = "claude-opus-4-5" then Except.error "boom"
                  else Except.ok (PuterRes.str "ans")) "q").2.2
    { model := "claude-opus-4-5", name := "Claude Opus 4.5" } "boom" rfl

/-- Claim C3: if the final synthesis call fails, `runDirectorMode` surfaces the
single user-visible error message `Director Mode Failed: <e>` and does not fall
back to the raw concatenated expert opinions. -/
theorem ensemble_synthesis_failure_surfaced
    (chat : String → String → Except String PuterRes) (prompt e : String)
    (h : chat (finalPrompt prompt (directorRawData chat prompt)) "gemini-3-pro-preview" =
      Except.error e) :
    runDirectorMode chat prompt = "Director Mode Failed: " ++ e
    ∧ runDirectorMode chat prompt ≠ directorRawData chat prompt := by
  have hrun : runDirectorMode chat prompt = "Director Mode Failed: " ++ e := by
    show (match chat (finalPrompt prompt (directorRawData chat prompt))
            "gemini-3-pro-preview" with
          | .ok synthesis => extractText synthesis
          | .error err => "Director Mode Failed: " ++ err) =
        "Director Mode Failed: " ++ e
    rw [h]
  refine ⟨hrun, ?_⟩
  rw [hrun]
  intro hcontra
  obtain ⟨rest, hr⟩ := directorRawData_starts chat prompt
  have hdata := congrArg String.data hcontra
  rw [hr, data_append] at hdata
  have hlit : ("Director Mode Failed: " : String).data =
      'D' :: ("irector Mode Failed: " : String).data := rfl
  rw [hlit, List.cons_append] at hdata
  injection hdata with h1 _
  exact absurd h1 (by decide)

/-- Claim C3, witness: a chat backend whose `gemini-3-pro-preview` calls fail
makes the synthesis call fail, and the surfaced message is the single error. -/
theorem ensemble_synthesis_failure_surfaced_witness :
    runDirectorMode
        (fun _ m => if m = "gemini-3-pro-preview" then Except.error "synthdown"
                    else Except.ok (PuterRes.str "ans"))
        "q" = "Director Mode Failed: synthdown" :=
  (ensemble_synthesis_failure_surfaced
      (fun _ m => if m = "gemini-3-pro-preview" then Except.error "synthdown"
                  else Except.ok (PuterRes.str "ans"))
      "q" "synthdown" rfl).1

/- ### Fallback Chain Resolver (spec §4.2)

src/app.py declares the role→chain mapping `MODEL_CHAINS` (lines 25-28) but
contains no resolver iterating a chain: the resolver itself is repository code
not present under src/, so it is modelled from the spec. -/

/-- The `MODEL_CHAINS` role→fallback-chain table (src/app.py 25-28). -/
def MODEL_CHAINS : List (String × List String) :=
  [("NATIVE_AUDIO", ["gemini-2.0-flash-exp"]),
   ("NEURAL_TTS", ["gemini-2.5-flash-tts"])]

/-- Modelled from the spec: the Fallback Chain Resolver (`resolve`, spec §4.2)
is absent from src/app.py (only the `MODEL_CHAINS` declaration is present).
Iterates the role's ordered model list, calling the backend for each model; on
a failure it logs a human-readable "switching to next model" event and
continues; it returns the first success, and if every model fails it returns
the `FatalFailure` string "all agents failed".  Returns the result together
with the ordered log of switching events. -/
def resolveChain (backend : String → Except String String) :
    List String → Except String String × List String
  | [] => (Except.error "all agents failed", [])
  | m :: rest =>
    match backend m with
    | .ok t => (Except.ok t, [])
    | .error _ =>
      let r := resolveChain backend rest
      (r.1, "switching to next model" :: r.2)

/-- Modelled from the spec: `resolve(role, …)` looks the role up in
`MODEL_CHAINS` and drives the backend through the chain. -/
def resolveRole (backend : String → Except String String) (role : String) :
    Except String String × List String :=
  resolveChain backend ((MODEL_CHAINS.lookup role).getD [])

/-- Claim C1: over any fallback chain, if the first `k` models fail and the
model at index `k` succeeds with `t`, resolution returns `t` and logs exactly
`k` switching events (one per failed model, i.e. `k-1` in the claim's 1-based
counting where model `m_(k+1)` is the first success); and if every model in
the chain fails, resolution returns the `FatalFailure` user-visible error
string "all agents failed" — an ordinary value, never an exception. -/
theorem resolve_fallback_chain (backend : String → Except String String)
    (chain : List String) :
    (∀ k t, k < chain.length →
      (∀ i, i < k → ∃ e, backend (chain.getD i "") = Except.error e) →
      backend (chain.getD k "") = Except.ok t →
      resolveChain backend chain = (Except.ok t, List.replicate k "switching to next model"))
    ∧ ((∀ m, m ∈ chain → ∃ e, backend m = Except.error e) →
      (resolveChain backend chain).1 = Except.error "all agents failed") := by
  constructor
  · induction chain with
    | nil => intro k t hk; simp at hk
    | cons m rest ih =>
      intro k t hk hfail hsucc
      match k with
      | 0 =>
        rw [List.getD_cons_zero] at hsucc
        show (match backend m with
              | .ok t => (Except.ok t, ([] : List String))
              | .error _ =>
                let r := resolveChain backend rest
                (r.1, "switching to next model" :: r.2)) =
            (Except.ok t, List.replicate 0 "switching to next model")
        rw [hsucc]
        rfl
      | k' + 1 =>
        obtain ⟨e, he⟩ := hfail 0 (by omega)
        rw [List.getD_cons_zero] at he
        show (match backend m with
              | .ok t => (Except.ok t, ([] : List String))
              | .error _ =>
                let r := resolveChain backend rest
                (r.1, "switching to next model" :: r.2)) =
            (Except.ok t, List.replicate (k' + 1) "switching to next model")
        rw [he]
        have hfail' : ∀ i, i < k' → ∃ e, backend (rest.getD i "") = Except.error e := by
          intro i hi
          have := hfail (i + 1) (by omega)
          rwa [List.getD_cons_succ] at this
        have hsucc' : backend (rest.getD k' "") = Except.ok t := by
          rw [List.getD_cons_succ] at hsucc
          exact hsucc
        have hrec := ih k' t (by simpa using hk) hfail' hsucc'
        show ((resolveChain backend rest).1,
            "switching to next model" :: (resolveChain backend rest).2) = _
        rw [hrec]
        rfl
  · induction chain with
    | nil => intro _; rfl
    | cons m rest ih =>
      intro hall
      obtain ⟨e, he⟩ := hall m (List.mem_cons_self m rest)
      show (match backend m with
            | .ok t => (Except.ok t, ([] : List String))
            | .error _ =>
              let r := resolveChain backend rest
              (r.1, "switching to next model" :: r.2)).1 =
          Except.error "all agents failed"
      rw [he]
      exact ih (fun m' hm' => hall m' (List.mem_cons_of_mem m hm'))

/-- Claim C1, witness: in chain `["a", "b", "c"]` where model "a" fails and
model "b" succeeds, resolution returns "b"'s result with one switching event;
and a chain whose two models both fail resolves to "all agents failed". -/
theorem resolve_fallback_chain_witness :
    resolveChain (fun m => if m = "a" then Except.error "downA" else Except.ok "okB")
        ["a", "b", "c"] =
      (Except.ok "okB", List.replicate 1 "switching to next model")
    ∧ (resolveChain (fun _ => Except.error "down") ["a", "b"]).1 =
      Except.error "all agents failed" := by
  constructor
  · exact (resolve_fallback_chain
        (fun m => if m = "a" then Except.error "downA" else Except.ok "okB")
        ["a", "b", "c"]).1 1 "okB" (by decide)
      (by intro i hi
          have h0 : i = 0 := by omega
          subst h0
          exact ⟨"downA", rfl⟩)
      rfl
  · exact (resolve_fallback_chain (fun _ => Except.error "down") ["a", "b"]).2
      (fun m _ => ⟨"down", rfl⟩)

/- ### Director Review Loop (spec §4.5)

The critique-then-fix review pass is repository code not present under
src/app.py; it is modelled from the spec. -/

def startsWithList : List Char → List Char → Bool
  | [], _ => true
  | _ :: _, [] => false
  | a :: as, b :: bs => a == b && startsWithList as bs

def occursIn (needle : List Char) : List Char → Bool
  | [] => startsWithList needle []
  | c :: rest => startsWithList needle (c :: rest) || occursIn needle rest

/-- Upper-casing a string, character by character (`.upper()`). -/
def upperChars (s : String) : List Char :=
  s.data.map Char.toUpper

/-- Modelled from the spec: the review decision rule (spec §4.5) — the
critique response's upper-cased text is tested for *containment* of the token
"PERFECT" (substring match, not equality). -/
def containsPerfect (critique : String) : Bool :=
  occursIn "PERFECT".data (upperChars critique)

/-- Modelled from the spec: the stage-1 critique request (spec §4.5) sends the
draft plus the original prompt to the reviewer role, asking for the sentinel
token "PERFECT" when no issues exist. -/
def critiqueRequest (draft originalPrompt : String) : String :=
  "Review this draft. Reply with the exact token PERFECT if no issues exist, otherwise enumerate the issues in prose.\nUSER PROMPT: " ++
  originalPrompt ++ "\nDRAFT: " ++ draft

/-- Modelled from the spec: the stage-2 fix request (spec §4.5) sends the
critique text plus the original draft, asking for ONLY a fully corrected
artifact. -/
def fixRequest (critique draft : String) : String :=
  "Return ONLY a fully corrected artifact, not a diff.\nCRITIQUE: " ++ critique ++
  "\nDRAFT: " ++ draft

/-- Modelled from the spec: the Director Review Loop `review(draft,
original_prompt)` (spec §4.5), absent from src/app.py.  `respond` maps a chain
request to its response text.  Stage 1 obtains the critique; if its upper-cased
text contains "PERFECT" the original draft is returned unchanged after the one
call; otherwise the stage-2 fix output unconditionally replaces the draft
(single iteration).  Returns the final draft together with the ordered list of
chain requests issued. -/
def review (respond : String → String) (draft originalPrompt : String) :
    String × List String :=
  let cp := critiqueRequest draft originalPrompt
  let critique := respond cp
  if containsPerfect critique then (draft, [cp])
  else
    let fp := fixRequest critique draft
    (respond fp, [cp, fp])

/-- Claim C4: when the critique response's upper-cased text contains "PERFECT",
`review` returns the original draft unchanged after exactly one chain call;
otherwise it makes exactly two chain calls and returns the fix-stage output in
place of the original draft. -/
theorem director_review_loop (respond : String → String)
    (draft originalPrompt : String) :
    (containsPerfect (respond (critiqueRequest draft originalPrompt)) = true →
      review respond draft originalPrompt =
        (draft, [critiqueRequest draft originalPrompt]))
    ∧ (containsPerfect (respond (critiqueRequest draft originalPrompt)) = false →
      review respond draft originalPrompt =
        (respond (fixRequest (respond (critiqueRequest draft originalPrompt)) draft),
         [critiqueRequest draft originalPrompt,
          fixRequest (respond (critiqueRequest draft originalPrompt)) draft])) := by
  have hrw : review respond draft originalPrompt =
      if containsPerfect (respond (critiqueRequest draft originalPrompt)) then
        (draft, [critiqueRequest draft originalPrompt])
      else
        (respond (fixRequest (respond (critiqueRequest draft originalPrompt)) draft),
         [critiqueRequest draft originalPrompt,
          fixRequest (respond (critiqueRequest draft originalPrompt)) draft]) := rfl
  constructor
  · intro hp
    rw [hrw, hp]
    rfl
  · intro hp
    rw [hrw, hp]
    rfl

/-- A concrete reviewer for exercising the review loop: it criticises the first
draft ("Missing roof") and answers every other request with "fixed". -/
def demoReviewer (s : String) : String :=
  if s = critiqueRequest "d" "p" then "Missing roof" else "fixed"

/-- Claim C4, witness: a reviewer answering "PERFECT" leaves the draft intact
after one call; a reviewer answering "Missing roof" triggers the fix stage,
whose output replaces the draft after two calls. -/
theorem director_review_loop_witness :
    review (fun _ => "PERFECT") "d" "p" = ("d", [critiqueRequest "d" "p"])
    ∧ review demoReviewer "d" "p" =
      ("fixed", [critiqueRequest "d" "p", fixRequest "Missing roof" "d"]) := by
  constructor
  · exact (director_review_loop (fun _ => "PERFECT") "d" "p").1 (by decide)
  · have h := (director_review_loop demoReviewer "d" "p").2
    have hc : demoReviewer (critiqueRequest "d" "p") = "Missing roof" := by
      simp [demoReviewer]
    rw [hc] at h
    have hnp : containsPerfect "Missing roof" = false := by decide
    have h2 := h hnp
    have hf : demoReviewer (fixRequest "Missing roof" "d") = "fixed" := by
      have hne : ¬ (fixRequest "Missing roof" "d" = critiqueRequest "d" "p") := by decide
      simp [demoReviewer, hne]
    rw [hf] at h2
    exact h2

end OmniChat
